import Mathlib

/-
Shallow embedding of the session orchestration core of the jparty server,
translated from src/server/session/handle-host-event.ts. Collaborators that
live outside that file (the session registry utilities and the Session
entity's methods) are modelled from the design spec; each such definition is
marked `Modelled from the spec:` in its doc comment. Handlers are pure
functions from the registry (and, where the source mutates it, the socket's
connection record) to a new registry plus a trace of emitted effects; every
outbound emit and every timer (re)schedule of the source appears as one
Effect in the trace, in source order.
-/

namespace JParty

/-- Session phase enum, from the spec's state list (jparty-shared is not under src/). -/
inductive SessionState where
  | Lobby
  | ClueSelection
  | ReadingCategoryNames
  | ReadingClueSelection
  | ReadingClue
  | ClueTossup
  | ClueResponse
  | WaitingForClueDecision
  | ReadingClueDecision
  | WagerResponse
  | GameOver
deriving DecidableEq, Repr

/-- Timeout kinds used by the host-event handlers (jparty-shared is not under src/). -/
inductive SessionTimeoutType where
  | Announcement
  | ReadingCategoryName
  | ReadingClueSelection
  | ReadingClue
deriving DecidableEq, Repr

/-- Settings profiles; `Custom` once a bespoke game has been generated
(jparty-shared is not under src/; modelled from the spec's data model). -/
inductive TriviaGameSettingsPreset where
  | Standard
  | Custom
deriving DecidableEq, Repr

/-- One game instance: the fields of the spec's Session data model that the
host-event handlers read or write.  `hosts` maps connection id to client id.
The timer handles themselves are owned by the Timer Registry and are observed
here only through the effect trace. -/
structure Session where
  name : String
  creatorSocketID : String
  state : SessionState
  hosts : List (String × String)
  triviaGameSettingsPreset : TriviaGameSettingsPreset
  currentVoiceLine : Option String
  currentAnnouncement : Option String
  triviaRound : Bool
deriving DecidableEq, Repr

/-- The connection record: its socket id and its ambient session association
(the mutable `sessionName` field the router reads off the socket). -/
structure SocketInfo where
  id : String
  sessionName : Option String
deriving DecidableEq, Repr

/-- The session registry: name-to-session mapping, as an association list. -/
abbrev Registry := List (String × Session)

/-- Observable outbound effects of a handler, one constructor per emit or
timer call of the source, in source order.  `emitPreset rooms excluded p`
mirrors io.to(rooms).except(excluded).emit(UpdateGameSettingsPreset, p);
`cancelGame room sender` mirrors socket.broadcast.to(room).emit(CancelGame). -/
inductive Effect where
  | restartTimeout (sessionName : String) (kind : SessionTimeoutType) (durationMs : ℚ)
  | cancelAllTimeouts (sessionName : String)
  | message (socketID : String) (text : String) (isError : Bool)
  | emitPreset (rooms : List String) (excluded : List String) (preset : TriviaGameSettingsPreset)
  | cancelGame (room : String) (exceptSocketID : String)
  | stateUpdate (sessionName : String)
  | triviaRoundUpdate (sessionName : String)
  | leaderboardUpdate (socketID : String)
  | ackCallback (ok : Bool)
  | joinRoom (socketID : String) (room : String)
deriving DecidableEq, Repr

/-- Modelled from the spec: the registry's pure lookup, `get(name) -> Session | absent`. -/
def getSession : Registry → String → Option Session
  | [], _ => none
  | p :: rest, name => if p.1 = name then some p.2 else getSession rest name

/-- Update the stored session under `name` in place (sessions are mutated by
reference in the source; this is the registry-level view of that mutation). -/
def updateSession (r : Registry) (name : String) (f : Session → Session) : Registry :=
  List.map (fun p => if p.1 = name then (p.1, f p.2) else p) r

/-- Names of the live sessions in the registry. -/
def registryNames (r : Registry) : List String :=
  List.map Prod.fst r

/-- Socket ids of a session's host connections (Object.keys(session.hosts)). -/
def Session.hostIDs (s : Session) : List String :=
  List.map Prod.fst s.hosts

/-- Modelled from the spec: construction puts a new Session in Lobby state;
the hosts mapping holds "the creator plus any number of spectating hosts". -/
def mkSession (name creatorSocketID clientID : String) : Session :=
  { name := name, creatorSocketID := creatorSocketID, state := SessionState.Lobby,
    hosts := [(creatorSocketID, clientID)],
    triviaGameSettingsPreset := TriviaGameSettingsPreset.Standard,
    currentVoiceLine := none, currentAnnouncement := none, triviaRound := false }

/-- Modelled from the spec: `create(name, creatorConnection, creatorClientID)`
constructs a new Session in Lobby state and stores it in the registry. -/
def createSession (r : Registry) (name creatorSocketID clientID : String) : Registry :=
  r ++ [(name, mkSession name creatorSocketID clientID)]

/-- Modelled from the spec: `delete(name)` removes the session from the
registry; cancelling its timers is visible as the cancelAllTimeouts effect. -/
def deleteSessionReg (r : Registry) (name : String) : Registry :=
  List.filter (fun p => ¬(p.1 = name)) r

/-- Modelled from the spec: joining as host is "recorded in hosts". -/
def Session.connectHost (s : Session) (socketID clientID : String) : Session :=
  if socketID ∈ s.hostIDs then
    { s with hosts := List.map (fun p => if p.1 = socketID then (p.1, clientID) else p) s.hosts }
  else
    { s with hosts := s.hosts ++ [(socketID, clientID)] }

/-- Modelled from the spec: leaving "removes the connection from hosts". -/
def Session.disconnectHost (s : Session) (socketID : String) : Session :=
  { s with hosts := List.filter (fun p => ¬(p.1 = socketID)) s.hosts }

/-- Modelled from the spec: play-again "resets session game state", yielding
Lobby (round regenerated/retained, scores out of this core's model). -/
def Session.resetGame (s : Session) : Session :=
  { s with state := SessionState.Lobby }

/-- Modelled from the spec: on success the content generator's round is stored
and the preset becomes Custom; on failure the session is unchanged. -/
def Session.applyGeneratedGame (s : Session) : Session :=
  { s with triviaRound := true, triviaGameSettingsPreset := TriviaGameSettingsPreset.Custom }

/-- Modelled from the spec: emitServerError converts a failure into a
user-visible error message sent to the originating connection. -/
def emitServerError (socketID err : String) : Effect :=
  Effect.message socketID err true

/-- Modelled from the spec: joinSessionAsHost attaches the connection to the
session's room and records the ambient per-connection session association
(the connection's mutable current-session-name field, which the router and
handleAttemptSpectate later read back off the socket). -/
def joinSessionAsHost (sock : SocketInfo) (sessionName : String) : SocketInfo × Effect :=
  ({ sock with sessionName := some sessionName }, Effect.joinRoom sock.id sessionName)

/-- Modelled from the spec: the name generator yields word-like candidate
tokens; handleConnect's do-while loop draws candidates until one is absent
from the registry.  A finite candidate list stands for a finite prefix of the
unbounded stream; `none` is the case where every drawn candidate collided
(the source loop would keep drawing). -/
def pickSessionName (r : Registry) : List String → Option String
  | [] => none
  | c :: cs => if (getSession r c).isSome then pickSessionName r cs else some c

/-- handleConnect (handle-host-event.ts:13–22): loop random names until free,
then createSession and joinSessionAsHost. -/
def handleConnect (r : Registry) (sock : SocketInfo) (clientID : String)
    (candidates : List String) : Registry × SocketInfo × List Effect :=
  match pickSessionName r candidates with
  | none => (r, sock, [])
  | some sessionName =>
      let r1 := createSession r sessionName sock.id clientID
      let (sock1, fx) := joinSessionAsHost sock sessionName
      (r1, sock1, [fx])

/-- handleUpdateGameSettingsPreset (handle-host-event.ts:24–37). -/
def handleUpdateGameSettingsPreset (r : Registry) (socketID sessionName : String)
    (preset : TriviaGameSettingsPreset) : Registry × List Effect :=
  match getSession r sessionName with
  | none => (r, [])
  | some session =>
    if ¬(session.state = SessionState.Lobby) then (r, [])
    else if ¬(socketID = session.creatorSocketID) then (r, [])
    else
      (updateSession r sessionName (fun s => { s with triviaGameSettingsPreset := preset }),
       [Effect.emitPreset session.hostIDs [socketID] preset])

/-- handleUpdateVoiceDuration (handle-host-event.ts:51–91).  The source's
switch statement falls through from the ReadingCategoryNames case (no break)
into the ReadingClueSelection case before its break; the translation keeps
that control flow. -/
def handleUpdateVoiceDuration (r : Registry) (socketID sessionName voiceLine : String)
    (durationSec : ℚ) : Registry × List Effect :=
  match getSession r sessionName with
  | none => (r, [])
  | some session =>
    if ¬(socketID = session.creatorSocketID) then (r, [])
    else if ¬(some voiceLine = session.currentVoiceLine) then (r, [])
    else
      let durationMs := durationSec * 1000
      let announceFx :=
        if session.currentAnnouncement.isSome then
          [Effect.restartTimeout sessionName SessionTimeoutType.Announcement durationMs]
        else []
      let phaseFx :=
        match session.state with
        | SessionState.ReadingCategoryNames =>
            [Effect.restartTimeout sessionName SessionTimeoutType.ReadingCategoryName durationMs,
             Effect.restartTimeout sessionName SessionTimeoutType.ReadingClueSelection durationMs]
        | SessionState.ReadingClueSelection =>
            [Effect.restartTimeout sessionName SessionTimeoutType.ReadingClueSelection durationMs]
        | SessionState.ReadingClue =>
            [Effect.restartTimeout sessionName SessionTimeoutType.ReadingClue durationMs]
        | _ => []
      (r, announceFx ++ phaseFx)

/-- handleLeaveSession (handle-host-event.ts:114–128).  The router passes the
socket's ambient session association, which may be unset. -/
def handleLeaveSession (r : Registry) (socketID : String) (sessionName : Option String) :
    Registry × List Effect :=
  match sessionName with
  | none => (r, [])
  | some sn =>
    match getSession r sn with
    | none => (r, [])
    | some session =>
      let r1 := updateSession r sn (fun s => s.disconnectHost socketID)
      if socketID = session.creatorSocketID then
        (deleteSessionReg r1 sn, [Effect.cancelAllTimeouts sn, Effect.cancelGame sn socketID])
      else
        (r1, [])

/-- handleAttemptSpectate (handle-host-event.ts:93–112): reject unknown
session or duplicate host with an error message; otherwise connectHost and
joinSessionAsHost, emit the joined message, then handleLeaveSession with the
session association read back off the socket (which joinSessionAsHost has
just updated). -/
def handleAttemptSpectate (r : Registry) (sock : SocketInfo) (sessionName clientID : String) :
    Registry × SocketInfo × List Effect :=
  match getSession r sessionName with
  | none =>
      (r, sock,
       [Effect.message sock.id ("Couldn\x27t find session a session named: " ++ sessionName) true])
  | some session =>
    if sock.id ∈ session.hostIDs then
      (r, sock, [Effect.message sock.id ("Already a host in session: " ++ sessionName) true])
    else
      let r1 := updateSession r sessionName (fun s => s.connectHost sock.id clientID)
      let (sock1, joinFx) := joinSessionAsHost sock sessionName
      let msgFx := Effect.message sock1.id ("Joined session: " ++ sessionName ++ " as spectator") false
      let (r2, leaveFx) := handleLeaveSession r1 sock1.id sock1.sessionName
      (r2, sock1, [joinFx, msgFx] ++ leaveFx)

/-- handleGenerateCustomGame (handle-host-event.ts:130–153).  The awaited
collaborator's outcome is a parameter: error with its message, or ok. -/
def handleGenerateCustomGame (r : Registry) (socketID sessionName : String)
    (genResult : Except String Unit) : Registry × List Effect :=
  match getSession r sessionName with
  | none => (r, [])
  | some session =>
    if ¬(session.state = SessionState.Lobby) then (r, [])
    else if ¬(socketID = session.creatorSocketID) then (r, [])
    else
      match genResult with
      | Except.error e => (r, [emitServerError socketID e, Effect.ackCallback false])
      | Except.ok _ =>
          (updateSession r sessionName Session.applyGeneratedGame,
           [Effect.emitPreset session.hostIDs [] TriviaGameSettingsPreset.Custom,
            Effect.message socketID "Custom settings were saved successfully" false,
            Effect.triviaRoundUpdate sessionName,
            Effect.ackCallback true])

/-- handlePlayAgain (handle-host-event.ts:155–165). -/
def handlePlayAgain (r : Registry) (socketID sessionName : String) : Registry × List Effect :=
  match getSession r sessionName with
  | none => (r, [])
  | some session =>
    if ¬(session.state = SessionState.GameOver) then (r, [])
    else
      (updateSession r sessionName Session.resetGame,
       [Effect.stateUpdate sessionName, Effect.triviaRoundUpdate sessionName,
        Effect.leaderboardUpdate socketID])

/-- Run a sequence of Connect events (socket, clientID, name candidates). -/
def runConnects (r : Registry) : List (SocketInfo × String × List String) → Registry
  | [] => r
  | (sock, cid, cands) :: rest => runConnects (handleConnect r sock cid cands).1 rest

end JParty

namespace JParty

/-- Demo session used by witness theorems, parameterised by its phase. -/
def demoSession (st : SessionState) : Session :=
  { name := "abc", creatorSocketID := "s1", state := st,
    hosts := [("s1", "k1"), ("s2", "k2")],
    triviaGameSettingsPreset := TriviaGameSettingsPreset.Standard,
    currentVoiceLine := some "line", currentAnnouncement := none, triviaRound := false }

/-- Demo one-session registry used by witness theorems. -/
def demoReg (st : SessionState) : Registry := [("abc", demoSession st)]

/-- Demo session with an announcement in flight. -/
def demoAnnSession (st : SessionState) : Session :=
  { demoSession st with currentAnnouncement := some "welcome" }

/-- Demo registry whose session is mid-announcement. -/
def demoAnnReg (st : SessionState) : Registry := [("abc", demoAnnSession st)]

/-- Session "old": connection x spectates away from it in the C3 scenario. -/
def oldDemoSession : Session :=
  { name := "old", creatorSocketID := "c1", state := SessionState.Lobby,
    hosts := [("c1", "k1"), ("x", "kx")],
    triviaGameSettingsPreset := TriviaGameSettingsPreset.Standard,
    currentVoiceLine := none, currentAnnouncement := none, triviaRound := false }

/-- Session "new": the session connection x attempts to spectate. -/
def newDemoSession : Session :=
  { name := "new", creatorSocketID := "c2", state := SessionState.Lobby,
    hosts := [("c2", "k2")],
    triviaGameSettingsPreset := TriviaGameSettingsPreset.Standard,
    currentVoiceLine := none, currentAnnouncement := none, triviaRound := false }

/-- Two-session registry for the spectate scenario. -/
def spectateReg : Registry := [("old", oldDemoSession), ("new", newDemoSession)]

/-- Connection x, currently attached to session "old" as a non-creator host. -/
def spectateSock : SocketInfo := { id := "x", sessionName := some "old" }

theorem getSession_updateSession (r : Registry) (n : String) (f : Session → Session) :
    getSession (updateSession r n f) n = (getSession r n).map f := by
  induction r with
  | nil => rfl
  | cons p rest ih =>
      by_cases h : p.1 = n
      · simp [updateSession, getSession, h]
      · simp [updateSession, getSession, h] at ih ⊢
        simpa using ih

theorem getSession_deleteSessionReg (r : Registry) (n : String) :
    getSession (deleteSessionReg r n) n = none := by
  induction r with
  | nil => rfl
  | cons p rest ih =>
      by_cases h : p.1 = n <;> simp [deleteSessionReg, getSession, h] at ih ⊢ <;> simpa using ih

theorem getSession_none_not_mem (r : Registry) (n : String) (h : getSession r n = none) :
    n ∉ registryNames r := by
  induction r with
  | nil => simp [registryNames]
  | cons p rest ih =>
      by_cases hp : p.1 = n
      · simp [getSession, hp] at h
      · have h2 : getSession rest n = none := by simpa [getSession, hp] using h
        simp only [registryNames, List.map_cons, List.mem_cons]
        rintro (h1 | h1)
        · exact hp h1.symm
        · exact ih h2 h1

theorem pickSessionName_fresh (r : Registry) (cands : List String) (n : String)
    (h : pickSessionName r cands = some n) : getSession r n = none := by
  induction cands with
  | nil => simp [pickSessionName] at h
  | cons c cs ih =>
      by_cases hc : (getSession r c).isSome
      · exact ih (by simpa [pickSessionName, hc] using h)
      · simp [pickSessionName, hc] at h
        subst h
        exact Option.not_isSome_iff_eq_none.mp hc

theorem registryNames_createSession (r : Registry) (n c k : String) :
    registryNames (createSession r n c k) = registryNames r ++ [n] := by
  simp [registryNames, createSession]

end JParty

namespace JParty

/-- Claim C2: a duration-correction event whose reported voiceLine differs
from the session's currentVoiceLine reschedules no timeout and leaves the
registry unchanged — the stale report is discarded. -/
theorem updateVoiceDuration_stale_noop (r : Registry) (sid sn vl : String) (d : ℚ)
    (s : Session) (hs : getSession r sn = some s)
    (hv : ¬(some vl = s.currentVoiceLine)) :
    handleUpdateVoiceDuration r sid sn vl d = (r, []) := by
  by_cases hc : sid = s.creatorSocketID <;>
    simp [handleUpdateVoiceDuration, hs, hc, hv]

/-- Claim C2 witness: a stale report for "other" while the current line is
"line" is a no-op even from the creator. -/
theorem updateVoiceDuration_stale_noop_witness :
    handleUpdateVoiceDuration (demoReg SessionState.ReadingClue) "s1" "abc" "other" 2 =
      (demoReg SessionState.ReadingClue, []) :=
  updateVoiceDuration_stale_noop _ _ _ _ _ (demoSession SessionState.ReadingClue)
    (by decide) (by decide)

/-- Claim C10: a duration-correction event from any socket other than the
session's creator is ignored — no timeout restarted, registry unchanged —
even when the reported voice line is the current one. -/
theorem updateVoiceDuration_noncreator_noop (r : Registry) (sid sn vl : String) (d : ℚ)
    (s : Session) (hs : getSession r sn = some s)
    (hc : ¬(sid = s.creatorSocketID)) :
    handleUpdateVoiceDuration r sid sn vl d = (r, []) := by
  simp [handleUpdateVoiceDuration, hs, hc]

/-- Claim C10 witness: host "s2" of the demo session reports the current
line "line" and is ignored because it is not the creator "s1". -/
theorem updateVoiceDuration_noncreator_noop_witness :
    handleUpdateVoiceDuration (demoReg SessionState.ReadingClue) "s2" "abc" "line" 2 =
      (demoReg SessionState.ReadingClue, []) :=
  updateVoiceDuration_noncreator_noop _ _ _ _ _ (demoSession SessionState.ReadingClue)
    (by decide) (by decide)

/-- Claim C9: PlayAgain is a no-op for every session whose state is not
GameOver; from GameOver it resets the game state (yielding Lobby) and then
emits the state update, the round update and the leaderboard update, in that
order. -/
theorem playAgain_outcomes (r : Registry) (sid sn : String) :
    ((∀ s, getSession r sn = some s → ¬(s.state = SessionState.GameOver)) →
        handlePlayAgain r sid sn = (r, [])) ∧
    (∀ s, getSession r sn = some s → s.state = SessionState.GameOver →
        handlePlayAgain r sid sn =
          (updateSession r sn Session.resetGame,
           [Effect.stateUpdate sn, Effect.triviaRoundUpdate sn,
            Effect.leaderboardUpdate sid]) ∧
        (getSession (handlePlayAgain r sid sn).1 sn).map Session.state =
          some SessionState.Lobby) := by
  constructor
  · intro h
    cases hg : getSession r sn with
    | none => simp [handlePlayAgain, hg]
    | some s => simp [handlePlayAgain, hg, h s hg]
  · intro s hs hgo
    have he : handlePlayAgain r sid sn =
        (updateSession r sn Session.resetGame,
         [Effect.stateUpdate sn, Effect.triviaRoundUpdate sn,
          Effect.leaderboardUpdate sid]) := by
      simp [handlePlayAgain, hs, hgo]
    refine ⟨he, ?_⟩
    rw [he]
    simp [getSession_updateSession, hs, Session.resetGame]

/-- Claim C9 witness: the no-op branch on a Lobby session and the full
GameOver branch on the demo registry. -/
theorem playAgain_outcomes_witness :
    handlePlayAgain (demoReg SessionState.Lobby) "s1" "abc" =
      (demoReg SessionState.Lobby, []) ∧
    handlePlayAgain (demoReg SessionState.GameOver) "s1" "abc" =
      (updateSession (demoReg SessionState.GameOver) "abc" Session.resetGame,
       [Effect.stateUpdate "abc", Effect.triviaRoundUpdate "abc",
        Effect.leaderboardUpdate "s1"]) := by
  constructor
  · refine (playAgain_outcomes (demoReg SessionState.Lobby) "s1" "abc").1 ?_
    intro s hs
    obtain rfl : s = demoSession SessionState.Lobby := by
      simpa [demoReg, getSession] using hs.symm
    decide
  · exact ((playAgain_outcomes (demoReg SessionState.GameOver) "s1" "abc").2
      (demoSession SessionState.GameOver) (by decide) (by decide)).1

end JParty

namespace JParty

/-- Claim C4: a settings-preset update and a custom-game generation take
effect only in Lobby state with the acting socket equal to creatorSocketID;
any other actor or state is a no-op leaving the registry (hence state and
triviaGameSettingsPreset) unchanged, and a successful preset update stores
the preset and broadcasts it to every host of the session except the actor. -/
theorem presetAuthority (r : Registry) (sid sn : String) (p : TriviaGameSettingsPreset)
    (g : Except String Unit) (s : Session) (hs : getSession r sn = some s) :
    ((¬(s.state = SessionState.Lobby) ∨ ¬(sid = s.creatorSocketID)) →
        handleUpdateGameSettingsPreset r sid sn p = (r, []) ∧
        handleGenerateCustomGame r sid sn g = (r, [])) ∧
    (s.state = SessionState.Lobby → sid = s.creatorSocketID →
        handleUpdateGameSettingsPreset r sid sn p =
          (updateSession r sn (fun t => { t with triviaGameSettingsPreset := p }),
           [Effect.emitPreset s.hostIDs [sid] p]) ∧
        (getSession (handleUpdateGameSettingsPreset r sid sn p).1 sn).map
            Session.triviaGameSettingsPreset = some p) := by
  constructor
  · rintro (hst | hcid)
    · exact ⟨by simp [handleUpdateGameSettingsPreset, hs, hst],
        by simp [handleGenerateCustomGame, hs, hst]⟩
    · by_cases hst : s.state = SessionState.Lobby
      · exact ⟨by simp [handleUpdateGameSettingsPreset, hs, hst, hcid],
          by simp [handleGenerateCustomGame, hs, hst, hcid]⟩
      · exact ⟨by simp [handleUpdateGameSettingsPreset, hs, hst],
          by simp [handleGenerateCustomGame, hs, hst]⟩
  · intro hst hcid
    have he : handleUpdateGameSettingsPreset r sid sn p =
        (updateSession r sn (fun t => { t with triviaGameSettingsPreset := p }),
         [Effect.emitPreset s.hostIDs [sid] p]) := by
      simp [handleUpdateGameSettingsPreset, hs, hst, hcid]
    refine ⟨he, ?_⟩
    rw [he]
    simp [getSession_updateSession, hs]

/-- Claim C4 witness: a non-Lobby preset update is a no-op, a non-creator
generation attempt is a no-op, and a creator preset update in Lobby stores
and broadcasts the preset to the hosts other than the actor. -/
theorem presetAuthority_witness :
    handleUpdateGameSettingsPreset (demoReg SessionState.GameOver) "s1" "abc"
        TriviaGameSettingsPreset.Custom = (demoReg SessionState.GameOver, []) ∧
    handleGenerateCustomGame (demoReg SessionState.Lobby) "s2" "abc"
        (Except.ok ()) = (demoReg SessionState.Lobby, []) ∧
    handleUpdateGameSettingsPreset (demoReg SessionState.Lobby) "s1" "abc"
        TriviaGameSettingsPreset.Custom =
      (updateSession (demoReg SessionState.Lobby) "abc"
        (fun t => { t with triviaGameSettingsPreset := TriviaGameSettingsPreset.Custom }),
       [Effect.emitPreset ["s1", "s2"] ["s1"] TriviaGameSettingsPreset.Custom]) := by
  refine ⟨?_, ?_, ?_⟩
  · exact ((presetAuthority (demoReg SessionState.GameOver) "s1" "abc"
      TriviaGameSettingsPreset.Custom (Except.ok ()) (demoSession SessionState.GameOver)
      (by decide)).1 (Or.inl (by decide))).1
  · exact ((presetAuthority (demoReg SessionState.Lobby) "s2" "abc"
      TriviaGameSettingsPreset.Custom (Except.ok ()) (demoSession SessionState.Lobby)
      (by decide)).1 (Or.inr (by decide))).2
  · exact ((presetAuthority (demoReg SessionState.Lobby) "s1" "abc"
      TriviaGameSettingsPreset.Custom (Except.ok ()) (demoSession SessionState.Lobby)
      (by decide)).2 (by decide) (by decide)).1

/-- Claim C5: with the Lobby/creator guards satisfied, a failed custom-game
generation sends the error to the acting connection as an error-flagged
message, acknowledges false and leaves the registry unchanged; a successful
one broadcasts the Custom preset to all hosts, broadcasts the round update
and acknowledges true. -/
theorem generateCustomGame_outcomes (r : Registry) (sid sn : String) (s : Session)
    (hs : getSession r sn = some s) (hst : s.state = SessionState.Lobby)
    (hcid : sid = s.creatorSocketID) :
    (∀ e, handleGenerateCustomGame r sid sn (Except.error e) =
        (r, [emitServerError sid e, Effect.ackCallback false])) ∧
    (handleGenerateCustomGame r sid sn (Except.ok ()) =
        (updateSession r sn Session.applyGeneratedGame,
         [Effect.emitPreset s.hostIDs [] TriviaGameSettingsPreset.Custom,
          Effect.message sid "Custom settings were saved successfully" false,
          Effect.triviaRoundUpdate sn,
          Effect.ackCallback true])) := by
  constructor
  · intro e
    simp [handleGenerateCustomGame, hs, hst, hcid]
  · simp [handleGenerateCustomGame, hs, hst, hcid]

/-- Claim C5 witness: the failure and success branches on the demo Lobby
registry with the creator acting. -/
theorem generateCustomGame_outcomes_witness :
    handleGenerateCustomGame (demoReg SessionState.Lobby) "s1" "abc"
        (Except.error "generation failed") =
      (demoReg SessionState.Lobby,
       [emitServerError "s1" "generation failed", Effect.ackCallback false]) ∧
    handleGenerateCustomGame (demoReg SessionState.Lobby) "s1" "abc" (Except.ok ()) =
      (updateSession (demoReg SessionState.Lobby) "abc" Session.applyGeneratedGame,
       [Effect.emitPreset ["s1", "s2"] [] TriviaGameSettingsPreset.Custom,
        Effect.message "s1" "Custom settings were saved successfully" false,
        Effect.triviaRoundUpdate "abc",
        Effect.ackCallback true]) := by
  constructor
  · exact (generateCustomGame_outcomes (demoReg SessionState.Lobby) "s1" "abc"
      (demoSession SessionState.Lobby) (by decide) (by decide) (by decide)).1
      "generation failed"
  · exact (generateCustomGame_outcomes (demoReg SessionState.Lobby) "s1" "abc"
      (demoSession SessionState.Lobby) (by decide) (by decide) (by decide)).2

end JParty

namespace JParty

/-- Claim C6: when the creator leaves its session, the session is removed
from the registry (its timers cancelled) and a game-cancellation notice is
broadcast to the session's room excluding the leaver; when a non-creator
spectator leaves, only the hosts membership is updated and the session stays
in the registry with its state unchanged, with no notice emitted. -/
theorem leaveSession_outcomes (r : Registry) (sid sn : String) (s : Session)
    (hs : getSession r sn = some s) :
    (sid = s.creatorSocketID →
        handleLeaveSession r sid (some sn) =
          (deleteSessionReg (updateSession r sn (fun t => t.disconnectHost sid)) sn,
           [Effect.cancelAllTimeouts sn, Effect.cancelGame sn sid]) ∧
        getSession (handleLeaveSession r sid (some sn)).1 sn = none) ∧
    (¬(sid = s.creatorSocketID) →
        handleLeaveSession r sid (some sn) =
          (updateSession r sn (fun t => t.disconnectHost sid), []) ∧
        (getSession (handleLeaveSession r sid (some sn)).1 sn).map Session.state =
          some s.state) := by
  constructor
  · intro hc
    have he : handleLeaveSession r sid (some sn) =
        (deleteSessionReg (updateSession r sn (fun t => t.disconnectHost sid)) sn,
         [Effect.cancelAllTimeouts sn, Effect.cancelGame sn sid]) := by
      simp [handleLeaveSession, hs, hc]
    refine ⟨he, ?_⟩
    rw [he]
    exact getSession_deleteSessionReg _ _
  · intro hc
    have he : handleLeaveSession r sid (some sn) =
        (updateSession r sn (fun t => t.disconnectHost sid), []) := by
      simp [handleLeaveSession, hs, hc]
    refine ⟨he, ?_⟩
    rw [he]
    simp [getSession_updateSession, hs, Session.disconnectHost]

/-- Claim C6 witness: creator "s1" leaving deletes the demo session and
broadcasts the cancellation; spectator "s2" leaving keeps the session with
its state intact. -/
theorem leaveSession_outcomes_witness :
    (handleLeaveSession (demoReg SessionState.ClueSelection) "s1" (some "abc") =
      (deleteSessionReg (updateSession (demoReg SessionState.ClueSelection) "abc"
          (fun t => t.disconnectHost "s1")) "abc",
       [Effect.cancelAllTimeouts "abc", Effect.cancelGame "abc" "s1"]) ∧
      getSession (handleLeaveSession (demoReg SessionState.ClueSelection) "s1"
          (some "abc")).1 "abc" = none) ∧
    (handleLeaveSession (demoReg SessionState.ClueSelection) "s2" (some "abc") =
      (updateSession (demoReg SessionState.ClueSelection) "abc"
          (fun t => t.disconnectHost "s2"), []) ∧
      (getSession (handleLeaveSession (demoReg SessionState.ClueSelection) "s2"
          (some "abc")).1 "abc").map Session.state = some SessionState.ClueSelection) := by
  constructor
  · exact (leaveSession_outcomes (demoReg SessionState.ClueSelection) "s1" "abc"
      (demoSession SessionState.ClueSelection) (by decide)).1 (by decide)
  · exact (leaveSession_outcomes (demoReg SessionState.ClueSelection) "s2" "abc"
      (demoSession SessionState.ClueSelection) (by decide)).2 (by decide)

/-- Claim C8: spectating an unknown session name sends an error-flagged
message to the attempting connection and changes neither the registry nor the
connection record; spectating a session whose hosts already contain the
connection does the same. -/
theorem attemptSpectate_rejects (r : Registry) (sock : SocketInfo) (sn cid : String) :
    (getSession r sn = none →
        handleAttemptSpectate r sock sn cid =
          (r, sock,
           [Effect.message sock.id
              ("Couldn\x27t find session a session named: " ++ sn) true])) ∧
    (∀ s, getSession r sn = some s → sock.id ∈ s.hostIDs →
        handleAttemptSpectate r sock sn cid =
          (r, sock,
           [Effect.message sock.id ("Already a host in session: " ++ sn) true])) := by
  constructor
  · intro h
    simp [handleAttemptSpectate, h]
  · intro s hs hmem
    simp [handleAttemptSpectate, hs, hmem]

/-- Claim C8 witness: spectating the unknown name "zzz" and spectating "abc"
as "s2", which is already one of its hosts. -/
theorem attemptSpectate_rejects_witness :
    handleAttemptSpectate (demoReg SessionState.Lobby)
        { id := "s9", sessionName := none } "zzz" "k9" =
      (demoReg SessionState.Lobby, { id := "s9", sessionName := none },
       [Effect.message "s9" ("Couldn\x27t find session a session named: " ++ "zzz") true]) ∧
    handleAttemptSpectate (demoReg SessionState.Lobby)
        { id := "s2", sessionName := some "abc" } "abc" "k2" =
      (demoReg SessionState.Lobby, { id := "s2", sessionName := some "abc" },
       [Effect.message "s2" ("Already a host in session: " ++ "abc") true]) := by
  constructor
  · exact (attemptSpectate_rejects (demoReg SessionState.Lobby)
      { id := "s9", sessionName := none } "zzz" "k9").1 (by decide)
  · exact (attemptSpectate_rejects (demoReg SessionState.Lobby)
      { id := "s2", sessionName := some "abc" } "abc" "k2").2
      (demoSession SessionState.Lobby) (by decide) (by decide)

end JParty

namespace JParty

/-- Claim C1 counterexample: with the demo session accepted in state
ReadingCategoryNames (creator acting, current voice line reported), the
handler also reschedules the ReadingClueSelection timeout — the switch falls
through — so the rescheduled phase timeout is not only the one mapped from
the current state. -/
theorem updateVoiceDuration_fallthrough_cex :
    (getSession (demoReg SessionState.ReadingCategoryNames) "abc").map Session.state =
      some SessionState.ReadingCategoryNames ∧
    Effect.restartTimeout "abc" SessionTimeoutType.ReadingClueSelection (2 * 1000) ∈
      (handleUpdateVoiceDuration (demoReg SessionState.ReadingCategoryNames)
        "s1" "abc" "line" 2).2 := by
  refine ⟨rfl, ?_⟩
  simp [handleUpdateVoiceDuration, demoReg, demoSession, getSession]

/-- Claim C1 (amended): for every accepted duration-correction event (session
exists, actor is the creator, utterance still current) the registry is
unchanged and the trace holds exactly restart effects with the corrected
duration, where: the Announcement timeout is rescheduled iff
currentAnnouncement is set; the ReadingCategoryName timeout iff the state is
ReadingCategoryNames; the ReadingClueSelection timeout iff the state is
ReadingCategoryNames (switch fall-through) or ReadingClueSelection; and the
ReadingClue timeout iff the state is ReadingClue. -/
theorem updateVoiceDuration_correction_mapping (r : Registry) (sid sn vl : String)
    (d : ℚ) (s : Session) (hs : getSession r sn = some s)
    (hcid : sid = s.creatorSocketID) (hv : some vl = s.currentVoiceLine) :
    (handleUpdateVoiceDuration r sid sn vl d).1 = r ∧
    (Effect.restartTimeout sn SessionTimeoutType.Announcement (d * 1000) ∈
        (handleUpdateVoiceDuration r sid sn vl d).2 ↔
      s.currentAnnouncement.isSome = true) ∧
    (Effect.restartTimeout sn SessionTimeoutType.ReadingCategoryName (d * 1000) ∈
        (handleUpdateVoiceDuration r sid sn vl d).2 ↔
      s.state = SessionState.ReadingCategoryNames) ∧
    (Effect.restartTimeout sn SessionTimeoutType.ReadingClueSelection (d * 1000) ∈
        (handleUpdateVoiceDuration r sid sn vl d).2 ↔
      (s.state = SessionState.ReadingCategoryNames ∨
       s.state = SessionState.ReadingClueSelection)) ∧
    (Effect.restartTimeout sn SessionTimeoutType.ReadingClue (d * 1000) ∈
        (handleUpdateVoiceDuration r sid sn vl d).2 ↔
      s.state = SessionState.ReadingClue) ∧
    (∀ e ∈ (handleUpdateVoiceDuration r sid sn vl d).2,
        ∃ k, e = Effect.restartTimeout sn k (d * 1000)) := by
  rcases hann : s.currentAnnouncement with _ | a <;>
    cases hstate : s.state <;>
      simp [handleUpdateVoiceDuration, hs, hcid, ← hv, hann, hstate]

/-- Claim C1 witness: mid-announcement session in state ReadingClue — both
the Announcement and the ReadingClue timeouts are rescheduled with the
corrected duration and nothing else is. -/
theorem updateVoiceDuration_correction_mapping_witness :
    (handleUpdateVoiceDuration (demoAnnReg SessionState.ReadingClue)
        "s1" "abc" "line" 2).1 = demoAnnReg SessionState.ReadingClue ∧
    (Effect.restartTimeout "abc" SessionTimeoutType.Announcement ((2 : ℚ) * 1000) ∈
        (handleUpdateVoiceDuration (demoAnnReg SessionState.ReadingClue)
          "s1" "abc" "line" 2).2 ↔
      (demoAnnSession SessionState.ReadingClue).currentAnnouncement.isSome = true) ∧
    (Effect.restartTimeout "abc" SessionTimeoutType.ReadingCategoryName ((2 : ℚ) * 1000) ∈
        (handleUpdateVoiceDuration (demoAnnReg SessionState.ReadingClue)
          "s1" "abc" "line" 2).2 ↔
      (demoAnnSession SessionState.ReadingClue).state = SessionState.ReadingCategoryNames) ∧
    (Effect.restartTimeout "abc" SessionTimeoutType.ReadingClueSelection ((2 : ℚ) * 1000) ∈
        (handleUpdateVoiceDuration (demoAnnReg SessionState.ReadingClue)
          "s1" "abc" "line" 2).2 ↔
      ((demoAnnSession SessionState.ReadingClue).state = SessionState.ReadingCategoryNames ∨
       (demoAnnSession SessionState.ReadingClue).state = SessionState.ReadingClueSelection)) ∧
    (Effect.restartTimeout "abc" SessionTimeoutType.ReadingClue ((2 : ℚ) * 1000) ∈
        (handleUpdateVoiceDuration (demoAnnReg SessionState.ReadingClue)
          "s1" "abc" "line" 2).2 ↔
      (demoAnnSession SessionState.ReadingClue).state = SessionState.ReadingClue) ∧
    (∀ e ∈ (handleUpdateVoiceDuration (demoAnnReg SessionState.ReadingClue)
        "s1" "abc" "line" 2).2,
        ∃ k, e = Effect.restartTimeout "abc" k ((2 : ℚ) * 1000)) :=
  updateVoiceDuration_correction_mapping (demoAnnReg SessionState.ReadingClue)
    "s1" "abc" "line" 2 (demoAnnSession SessionState.ReadingClue)
    (by decide) (by decide) (by decide)

end JParty

namespace JParty

/-- Claim C3: evaluation at the failing input.  Connection x, a host of
session "old", spectates session "new": the handler joins the new session
first, and only afterwards calls the leave handler with the session
association read off the socket — which joinSessionAsHost has already
updated to "new".  The leave therefore detaches x from the session it just
joined: afterwards x is still a host of "old", is not a host of "new", and
its connection record points at "new".  The claimed leave-then-join order
(detach from the previous session, then join the new one, so a connection
hosts at most one session) does not hold. -/
theorem attemptSpectate_join_then_leave_bug :
    ((getSession (handleAttemptSpectate spectateReg spectateSock "new" "kx").1 "old").map
        Session.hostIDs = some ["c1", "x"]) ∧
    ((getSession (handleAttemptSpectate spectateReg spectateSock "new" "kx").1 "new").map
        Session.hostIDs = some ["c2"]) ∧
    (handleAttemptSpectate spectateReg spectateSock "new" "kx").2.1.sessionName =
      some "new" := by
  decide

/-- Claim C7: session creation retries name generation past every candidate
already present in the registry, so across any sequence of Connect events the
live sessions keep pairwise-distinct names. -/
theorem connect_names_unique (events : List (SocketInfo × String × List String))
    (r : Registry) (h : (registryNames r).Nodup) :
    (registryNames (runConnects r events)).Nodup := by
  induction events generalizing r with
  | nil => simpa [runConnects] using h
  | cons ev rest ih =>
      obtain ⟨sock, cid, cands⟩ := ev
      cases hp : pickSessionName r cands with
      | none => simpa [runConnects, handleConnect, hp] using ih r h
      | some n =>
          have hfree : getSession r n = none := pickSessionName_fresh r cands n hp
          have hnotmem : n ∉ registryNames r := getSession_none_not_mem r n hfree
          have hnodup : (registryNames (createSession r n sock.id cid)).Nodup := by
            rw [registryNames_createSession]
            simp [List.nodup_append, h, hnotmem]
          simpa [runConnects, handleConnect, hp] using ih _ hnodup

/-- Claim C7 witness: starting from the demo registry (live session "abc"),
two Connect events whose first candidates collide with live names still
produce a registry with pairwise-distinct session names. -/
theorem connect_names_unique_witness :
    (registryNames (demoReg SessionState.Lobby)).Nodup ∧
    (registryNames (runConnects (demoReg SessionState.Lobby)
        [({ id := "h1", sessionName := none }, "k1", ["abc", "dog"]),
         ({ id := "h2", sessionName := none }, "k2", ["dog", "abc", "cat"])])).Nodup :=
  ⟨by decide,
   connect_names_unique
     [({ id := "h1", sessionName := none }, "k1", ["abc", "dog"]),
      ({ id := "h2", sessionName := none }, "k2", ["dog", "abc", "cat"])]
     (demoReg SessionState.Lobby) (by decide)⟩

end JParty
